import Mathlib

/-!
Verification development for the Robotic_Telescope repository.

Python floats are embedded as rationals (`ℚ`): every concrete value the
claims exercise (multiples of 0.1, 0.2, 0.5) is exactly representable, and
Python's `%` on floats with a positive modulus is exactly the
floor-remainder `pymod` below.  External libraries (`ephem`, `astropy`,
the `math` trig functions, GPIO) are not repository code; where a
repository function calls into them, the library call appears as an
explicit function parameter (an abstract ephemeris/cosine) and the
repository's own logic around it is embedded literally.  A library call
that may raise is a parameter returning `Option`, `none` standing for the
raised exception caught by the repository's `try/except`.

Variant namespaces: `T1` = `src/telescope/`, `T7` = `src/telescope_7/`,
`T8` = `src/telescope_8/`.
-/

namespace RoboticTelescope

/-- Python's `x % p` for floats (floor-style remainder, as used by
`target % 360.0` and `(current + step) % 360.0` in
`telescope_7/modules/azimuth.py`). -/
def pymod (x p : ℚ) : ℚ := x - p * (⌊x / p⌋ : ℤ)

/-- Python's `int(x)` truncation toward zero, used by
`telescope_8/modules/azimuth.py` in `set_azimuth`. -/
def pytrunc (q : ℚ) : ℤ := if 0 ≤ q then ⌊q⌋ else ⌈q⌉

/-- Python's `min(l, key=f)` on a nonempty list `h :: t`: the first element
attaining the minimal key wins (used by `get_moon_phase` in
`telescope_8/modules/moon.py`). -/
def pymin_key {α : Type} (f : α → ℚ) (h : α) (t : List α) : α :=
  t.foldl (fun best x => if f x < f best then x else best) h

/-- Shortest-path azimuth delta, embedded from the loop body of
`AzimuthMotorThread.run` (`telescope_7/modules/azimuth.py` lines 62-64):
`diff = target - current; if abs(diff) > 180: diff = diff - 360 if diff > 0
else diff + 360`.  `telescope_8/modules/azimuth.py` lines 144-150 compute
the same three lines. -/
def shortestDelta (current target : ℚ) : ℚ :=
  let diff := target - current
  if |diff| > 180 then (if diff > 0 then diff - 360 else diff + 360) else diff

namespace T7

/-- Mutable state of `AzimuthMotorThread` (`telescope_7/modules/azimuth.py`):
`current_az`, `target_az` (degrees) and `speed` (degrees per second). -/
structure AzimuthMotorThread where
  current_az : ℚ
  target_az : ℚ
  speed : ℚ

/-- Constructor state: `current_az = 0.0`, `target_az = 0.0`, `speed = 1.0`. -/
def AzimuthMotorThread.init : AzimuthMotorThread := ⟨0, 0, 1⟩

/-- `set_target`: `self.target_az = target % 360.0`. -/
def AzimuthMotorThread.set_target (s : AzimuthMotorThread) (target : ℚ) :
    AzimuthMotorThread :=
  { s with target_az := pymod target 360 }

/-- `set_speed`: `self.speed = max(0.1, min(5.0, speed))`. -/
def AzimuthMotorThread.set_speed (s : AzimuthMotorThread) (speed : ℚ) :
    AzimuthMotorThread :=
  { s with speed := max 0.1 (min 5 speed) }

/-- One iteration of the `run` loop (lines 56-82): compute the shortest-path
delta; if within the 0.1 tolerance stop (state unchanged); otherwise step
`current_az` by `speed * 0.1` in the delta's direction and re-wrap `% 360`. -/
def AzimuthMotorThread.tick (s : AzimuthMotorThread) : AzimuthMotorThread :=
  let diff := shortestDelta s.current_az s.target_az
  if |diff| < 0.1 then s
  else if diff > 0 then
    { s with current_az := pymod (s.current_az + s.speed * 0.1) 360 }
  else
    { s with current_az := pymod (s.current_az - s.speed * 0.1) 360 }

/-- External operations on the azimuth thread.  `stop` sets `running = False`
and halts the motor but leaves `current_az`/`target_az` untouched. -/
inductive AzOp where
  | set_target (t : ℚ)
  | set_speed (v : ℚ)
  | tick
  | stop

def AzimuthMotorThread.step (s : AzimuthMotorThread) : AzOp → AzimuthMotorThread
  | .set_target t => s.set_target t
  | .set_speed v => s.set_speed v
  | .tick => s.tick
  | .stop => s

/-- Run a sequence of operations from the constructor state. -/
def AzimuthMotorThread.exec (ops : List AzOp) : AzimuthMotorThread :=
  ops.foldl AzimuthMotorThread.step AzimuthMotorThread.init

/-- The spec scenario state: azimuth currently at 350 degrees, target 10
degrees, speed at its 5.0 maximum. -/
def azScenario : AzimuthMotorThread := ⟨350, 10, 5⟩

/-- Closed form of the `azScenario` trajectory: 40 half-degree steps from
350 through the 360/0 wrap up to 10, then parked. -/
def azTraj (k : ℕ) : ℚ :=
  if k < 20 then 350 + (k : ℚ) / 2
  else if k ≤ 40 then (k : ℚ) / 2 - 10
  else 10

/-- Mutable state of `AltitudeMotorThread` (`telescope_7/modules/altitude.py`). -/
structure AltitudeMotorThread where
  current_alt : ℚ
  target_alt : ℚ
  speed : ℚ

/-- Constructor state: `current_alt = 0.0`, `target_alt = 0.0`, `speed = 1.0`. -/
def AltitudeMotorThread.init : AltitudeMotorThread := ⟨0, 0, 1⟩

/-- `set_target`: `self.target_alt = max(0.0, min(90.0, target))`. -/
def AltitudeMotorThread.set_target (s : AltitudeMotorThread) (target : ℚ) :
    AltitudeMotorThread :=
  { s with target_alt := max 0 (min 90 target) }

/-- `set_speed`: `self.speed = max(0.1, min(5.0, speed))`. -/
def AltitudeMotorThread.set_speed (s : AltitudeMotorThread) (speed : ℚ) :
    AltitudeMotorThread :=
  { s with speed := max 0.1 (min 5 speed) }

/-- One iteration of the `run` loop (lines 55-84): if within the 0.1
tolerance stop (state unchanged); otherwise step `current_alt` by
`speed * 0.1` toward the target and clamp to `[0, 90]`. -/
def AltitudeMotorThread.tick (s : AltitudeMotorThread) : AltitudeMotorThread :=
  let diff := s.target_alt - s.current_alt
  if |diff| < 0.1 then s
  else if diff > 0 then
    { s with current_alt := max 0 (min 90 (s.current_alt + s.speed * 0.1)) }
  else
    { s with current_alt := max 0 (min 90 (s.current_alt - s.speed * 0.1)) }

/-- External operations on the altitude thread; `stop` leaves angles
untouched. -/
inductive AltOp where
  | set_target (t : ℚ)
  | set_speed (v : ℚ)
  | tick
  | stop

def AltitudeMotorThread.step (s : AltitudeMotorThread) :
    AltOp → AltitudeMotorThread
  | .set_target t => s.set_target t
  | .set_speed v => s.set_speed v
  | .tick => s.tick
  | .stop => s

/-- Run a sequence of operations from the constructor state. -/
def AltitudeMotorThread.exec (ops : List AltOp) : AltitudeMotorThread :=
  ops.foldl AltitudeMotorThread.step AltitudeMotorThread.init

/-- Mutable state of `SunTrackingThread` (`telescope_7/modules/sun.py`):
observer latitude/longitude, the `auto_track` flag and the `running` flag. -/
structure SunTrackingThread where
  lat : ℚ
  lon : ℚ
  auto_track : Bool
  running : Bool

/-- `calculate_sun_position` (lines 42-58).  The `ephem` library call (fed
by `self.lat`, `self.lon` and the current time `ephem.now()`, radians
converted to degrees) is the abstract parameter `eph`; `none` models a
raised exception.  Returns the `(alt, az)` pair together with whether
`error_signal` was emitted: on exception the function emits the error and
returns `(0.0, 0.0)`. -/
def SunTrackingThread.calculate_sun_position
    (eph : ℚ → ℚ → ℚ → Option (ℚ × ℚ)) (s : SunTrackingThread) (t : ℚ) :
    (ℚ × ℚ) × Bool :=
  match eph s.lat s.lon t with
  | some p => (p, false)
  | none => ((0, 0), true)

/-- `set_auto_track` (lines 35-40). -/
def SunTrackingThread.set_auto_track (s : SunTrackingThread) (enable : Bool) :
    SunTrackingThread :=
  { s with auto_track := enable }

/-- One iteration of the `run` loop (lines 81-93): if `auto_track` is set,
compute the sun position and emit it on `position_signal` (the returned
value); otherwise emit nothing. -/
def SunTrackingThread.tick (eph : ℚ → ℚ → ℚ → Option (ℚ × ℚ))
    (s : SunTrackingThread) (t : ℚ) : Option (ℚ × ℚ) :=
  if s.auto_track then some ((s.calculate_sun_position eph t).1) else none

/-- Mutable state of `MoonTrackingThread` (`telescope_7/modules/moon.py`),
identical in shape to the sun thread. -/
structure MoonTrackingThread where
  lat : ℚ
  lon : ℚ
  auto_track : Bool
  running : Bool

/-- `calculate_moon_position` (lines 40-56): same shape as the sun variant;
on exception emits the error and returns `(0.0, 0.0)`. -/
def MoonTrackingThread.calculate_moon_position
    (eph : ℚ → ℚ → ℚ → Option (ℚ × ℚ)) (s : MoonTrackingThread) (t : ℚ) :
    (ℚ × ℚ) × Bool :=
  match eph s.lat s.lon t with
  | some p => (p, false)
  | none => ((0, 0), true)

/-- Result of a safety-gated sun command: accepted, or rejected by the
solar-filter interlock (the `QMessageBox.critical` safety warning). -/
inductive SunCmdResult where
  | accepted
  | rejectedSafety
  deriving DecidableEq

/-- State of `SunTrackingWidget` (`telescope_7/modules/sun.py`): the
safety-critical `filter_checked` flag, the Auto Track checkbox, and the
owned tracking thread. -/
structure SunTrackingWidget where
  filter_checked : Bool
  auto_track_btn : Bool
  tracking_thread : SunTrackingThread

/-- `toggle_filter` (lines 282-295): record the checkbox state; when the
filter is unchecked and auto-track was on, uncheck the Auto Track box —
which re-enters `toggle_auto_track(Unchecked)` and calls
`set_auto_track(False)` on the thread. -/
def SunTrackingWidget.toggle_filter (s : SunTrackingWidget) (checked : Bool) :
    SunTrackingWidget :=
  if checked then { s with filter_checked := true }
  else
    if s.auto_track_btn then
      { s with filter_checked := false, auto_track_btn := false,
               tracking_thread := s.tracking_thread.set_auto_track false }
    else { s with filter_checked := false }

/-- `toggle_auto_track` (lines 327-339): enabling without the filter
confirmed is rejected with the safety error and the checkbox is reset
(which re-enters with `Unchecked` and forces the thread flag off);
otherwise the thread's `auto_track` follows the checkbox. -/
def SunTrackingWidget.toggle_auto_track (s : SunTrackingWidget)
    (checked : Bool) : SunTrackingWidget × SunCmdResult :=
  if checked && !s.filter_checked then
    ({ s with auto_track_btn := false,
              tracking_thread := s.tracking_thread.set_auto_track false },
     .rejectedSafety)
  else
    ({ s with auto_track_btn := checked,
              tracking_thread := s.tracking_thread.set_auto_track checked },
     .accepted)

/-- `slew_to_sun_position` (lines 313-325): without the filter confirmed the
command is rejected (safety dialog, early return, no position emitted);
otherwise the current sun position is computed and emitted. -/
def SunTrackingWidget.slew_to_sun_position
    (eph : ℚ → ℚ → ℚ → Option (ℚ × ℚ)) (s : SunTrackingWidget) (t : ℚ) :
    SunTrackingWidget × Option (ℚ × ℚ) × SunCmdResult :=
  if !s.filter_checked then (s, none, .rejectedSafety)
  else (s, some ((s.tracking_thread.calculate_sun_position eph t).1), .accepted)

/-- `TelescopeControllerGUI._slew_to_moon_position`
(`telescope_7/main.py` lines 527-543): never rejects; issues
`max(0.0, min(90.0, target_alt))` to the altitude axis and
`target_az % 360.0` to the azimuth axis. -/
def slew_to_moon_position_main (target_alt target_az : ℚ) : ℚ × ℚ :=
  (max 0 (min 90 target_alt), pymod target_az 360)

/-- `TelescopeControllerGUI._slew_to_sun_position`
(`telescope_7/main.py` lines 545-567): aborts (returns no targets) when the
solar filter checkbox is unchecked; otherwise issues the same clamped and
wrapped targets as the moon handler. -/
def slew_to_sun_position_main (filter_checked : Bool)
    (target_alt target_az : ℚ) : Option (ℚ × ℚ) :=
  if !filter_checked then none
  else some (max 0 (min 90 target_alt), pymod target_az 360)

/-- `MoonTrackingWidget.update_moon_phase` (`telescope_7/modules/moon.py`
lines 228-254): the phase text chosen from `moon.phase` (ephem's illuminated
percentage, 0-100) by threshold chains alone. -/
def update_moon_phase_text (phase : ℚ) : String :=
  if phase < 10 then "New Moon"
  else if phase < 40 then "Waxing Crescent"
  else if phase < 60 then "First Quarter"
  else if phase < 90 then "Waxing Gibbous"
  else if phase < 100 then "Full Moon"
  else if phase < 140 then "Waning Gibbous"
  else if phase < 160 then "Last Quarter"
  else "Waning Crescent"

end T7

namespace T1

/-- `MoonPositionThread.calculate_moon_phase`
(`telescope/modules/moon.py` lines 41-54): phase name from the illumination
percentage alone. -/
def calculate_moon_phase (illumination : ℚ) : String :=
  if illumination ≥ 98 then "Full Moon"
  else if illumination ≥ 50 then "Waning Gibbous"
  else if illumination ≥ 2 then "Waning Crescent"
  else if illumination ≤ 0 then "New Moon"
  else if illumination ≤ 50 then "Waxing Crescent"
  else "Waxing Gibbous"

end T1

namespace T8

/-- Mutable position state of `AzimuthThread`
(`telescope_8/modules/azimuth.py`); `speed` only drives the PWM duty cycle,
never the simulated position, so it is omitted. -/
structure AzimuthThread where
  current_position : ℚ
  target_position : ℚ

/-- Constructor state: both positions 0. -/
def AzimuthThread.init : AzimuthThread := ⟨0, 0⟩

/-- `set_azimuth` (lines 110-115):
`self.target_position = max(0, min(360, int(target)))`. -/
def AzimuthThread.set_azimuth (s : AzimuthThread) (target : ℚ) : AzimuthThread :=
  { s with target_position := max 0 (min 360 ((pytrunc target : ℤ) : ℚ)) }

/-- One iteration of the `run` loop (lines 137-180): when current differs
from target, move 0.2 degrees along the shortest path, wrap with
`if > 360: 0 elif < 0: 360`, then snap to the target when within the 0.2
tolerance. -/
def AzimuthThread.tick (s : AzimuthThread) : AzimuthThread :=
  if s.current_position = s.target_position then s
  else
    let diff := shortestDelta s.current_position s.target_position
    let c1 := if diff > 0 then s.current_position + 0.2
              else s.current_position - 0.2
    let c2 := if c1 > 360 then 0 else if c1 < 0 then 360 else c1
    if |c2 - s.target_position| < 0.2 then
      { s with current_position := s.target_position }
    else { s with current_position := c2 }

/-- External operations; `set_speed` and `stop_motors` never touch the
simulated position. -/
inductive AzOp where
  | set_azimuth (t : ℚ)
  | set_speed (v : ℚ)
  | tick
  | stop_motors

def AzimuthThread.step (s : AzimuthThread) : AzOp → AzimuthThread
  | .set_azimuth t => s.set_azimuth t
  | .set_speed _ => s
  | .tick => s.tick
  | .stop_motors => s

/-- Run a sequence of operations from the constructor state. -/
def AzimuthThread.exec (ops : List AzOp) : AzimuthThread :=
  ops.foldl AzimuthThread.step AzimuthThread.init

/-- `MOON_PHASES` table (`telescope_8/modules/moon.py` lines 30-39):
name, emoji, phase value. -/
def MOON_PHASES : List (String × String × ℚ) :=
  [("New Moon", "🌑", 0),
   ("Waxing Crescent", "🌒", 1/8),
   ("First Quarter", "🌓", 1/4),
   ("Waxing Gibbous", "🌔", 3/8),
   ("Full Moon", "🌕", 1/2),
   ("Waning Gibbous", "🌖", 5/8),
   ("Last Quarter", "🌗", 3/4),
   ("Waning Crescent", "🌘", 7/8)]

/-- `get_moon_phase` (lines 132-136): wrap the phase into `[0,1)` and take
the `MOON_PHASES` entry closest to it (Python `min` with key, first minimal
entry wins). -/
def get_moon_phase (phase : ℚ) : String × String × ℚ :=
  let p := pymod phase 1
  pymin_key (fun x => |x.2.2 - p|) ("New Moon", "🌑", 0) (MOON_PHASES.drop 1)

/-- The `current_moon_data` dictionary of `MoonCalculationThread`
(`telescope_8/modules/moon.py`). -/
structure MoonData where
  altitude : ℚ
  azimuth : ℚ
  phase : ℚ
  illumination : ℚ
  phase_name : String
  phase_emoji : String
  tracking : Bool
  visible : Bool

/-- The constructor's initial `current_moon_data`. -/
def MoonData.init : MoonData := ⟨0, 0, 0, 0, "New Moon", "🌑", false, false⟩

/-- Mutable state of `MoonCalculationThread`. -/
structure MoonCalculationThread where
  latitude : ℚ
  longitude : ℚ
  tracking : Bool
  current_moon_data : MoonData

/-- `calculate_moon_position` (`telescope_8/modules/moon.py` lines 85-130).
The astropy calls (moon alt/az and sun-moon separation at the observer and
current time) are the abstract parameter `eph`, `none` modelling an
exception raised anywhere in the `try` block; `cos_deg` abstracts
`math.cos(math.radians(.))`.  On success the illumination, phase value and
phase name are derived exactly as in the source; on exception the method
emits the error on `status_updated` and returns the previous
`self.current_moon_data`. -/
def MoonCalculationThread.calculate_moon_position
    (cos_deg : ℚ → ℚ) (eph : ℚ → ℚ → ℚ → Option (ℚ × ℚ × ℚ))
    (s : MoonCalculationThread) (t : ℚ) : MoonData :=
  match eph s.latitude s.longitude t with
  | none => s.current_moon_data
  | some (moon_altitude, moon_azimuth, phase_angle) =>
    let illumination := (1 + cos_deg phase_angle) / 2 * 100
    let phase := if phase_angle ≤ 180 then phase_angle / 360
                 else (360 - phase_angle) / 360 + 1/2
    let pn := get_moon_phase phase
    { altitude := moon_altitude
      azimuth := moon_azimuth
      phase := phase
      illumination := illumination
      phase_name := pn.1
      phase_emoji := pn.2.1
      tracking := s.tracking
      visible := if moon_altitude > 0 then true else false }

end T8

/-! ## Theorems -/

lemma pymod_nonneg (x : ℚ) {p : ℚ} (hp : 0 < p) : 0 ≤ pymod x p := by
  have h := Int.floor_le (x / p)
  have : p * (⌊x / p⌋ : ℤ) ≤ p * (x / p) := by
    exact mul_le_mul_of_nonneg_left h (le_of_lt hp)
  have hxp : p * (x / p) = x := by field_simp
  unfold pymod
  nlinarith

lemma pymod_lt (x : ℚ) {p : ℚ} (hp : 0 < p) : pymod x p < p := by
  have h := Int.lt_floor_add_one (x / p)
  have : p * (x / p) < p * ((⌊x / p⌋ : ℤ) + 1) := by
    exact mul_lt_mul_of_pos_left h hp
  have hxp : p * (x / p) = x := by field_simp
  unfold pymod
  nlinarith

lemma pymod_add_period (x : ℚ) {p : ℚ} (hp : 0 < p) :
    pymod (x + p) p = pymod x p := by
  unfold pymod
  have hne : p ≠ 0 := ne_of_gt hp
  have hdiv : (x + p) / p = x / p + 1 := by field_simp
  rw [hdiv]
  have : ⌊x / p + 1⌋ = ⌊x / p⌋ + 1 := by
    exact_mod_cast Int.floor_add_int (x / p) 1
  rw [this]
  push_cast
  ring

lemma pymod_sub_period (x : ℚ) {p : ℚ} (hp : 0 < p) :
    pymod (x - p) p = pymod x p := by
  have := pymod_add_period (x - p) hp
  simpa using this.symm

lemma pymod_eq_self {x p : ℚ} (hp : 0 < p) (h0 : 0 ≤ x) (h1 : x < p) :
    pymod x p = x := by
  unfold pymod
  have hz : ⌊x / p⌋ = 0 := by
    rw [Int.floor_eq_zero_iff]
    constructor
    · positivity
    · exact (div_lt_one hp).mpr h1
  rw [hz]
  norm_num

/-- C3 -- For azimuth current and target angles (always kept in `[0,360)` by
`set_target`'s `% 360.0` and the loop's re-wrap), the shortest-path delta has
magnitude at most 180 and adding it to the current angle reaches the target
modulo 360. -/
theorem shortest_delta_correct (c t : ℚ)
    (hc0 : 0 ≤ c) (hc1 : c < 360) (ht0 : 0 ≤ t) (ht1 : t < 360) :
    |shortestDelta c t| ≤ 180 ∧
    pymod (c + shortestDelta c t) 360 = pymod t 360 := by
  have h360 : (0:ℚ) < 360 := by norm_num
  unfold shortestDelta
  by_cases hbig : |t - c| > 180
  · rw [if_pos hbig]
    rcases abs_lt.mp (show |t - c| < 360 by
      rw [abs_lt]; constructor <;> linarith) with ⟨hlo, hhi⟩
    by_cases hpos : t - c > 0
    · rw [if_pos hpos]
      have habs : 180 < t - c := by
        rcases abs_cases (t - c) with ⟨he, _⟩ | ⟨he, hneg⟩
        · linarith [hbig, he.symm.le]
        · linarith
      constructor
      · rw [abs_le]; constructor <;> linarith
      · have : c + (t - c - 360) = t - 360 := by ring
        rw [this, pymod_sub_period t h360]
    · rw [if_neg hpos]
      push_neg at hpos
      have habs : t - c < -180 := by
        rcases abs_cases (t - c) with ⟨he, hp⟩ | ⟨he, _⟩
        · linarith
        · linarith [hbig, he.symm.le]
      constructor
      · rw [abs_le]; constructor <;> linarith
      · have : c + (t - c + 360) = t + 360 := by ring
        rw [this, pymod_add_period t h360]
  · rw [if_neg hbig]
    push_neg at hbig
    refine ⟨hbig, ?_⟩
    have : c + (t - c) = t := by ring
    rw [this]

/-- Witness for C3 at the scenario pair current = 350, target = 10. -/
theorem shortest_delta_correct_witness :
    |shortestDelta 350 10| ≤ 180 ∧
    pymod (350 + shortestDelta 350 10) 360 = pymod 10 360 :=
  shortest_delta_correct 350 10 (by norm_num) (by norm_num) (by norm_num)
    (by norm_num)

/-- C5 counterexample -- at current = 350, target = 170 the angular distance
is exactly 180, yet the computed delta is -180: the negative direction, not
the positive one the claim requires. -/
theorem tie_break_not_always_positive :
    shortestDelta 350 170 = -180 ∧ shortestDelta 350 170 < 0 := by
  constructor <;> · unfold shortestDelta; norm_num

/-- C5 amended -- at exactly half the period no correction is applied, so the
delta is the raw difference `target - current`: positive exactly when
`target > current` (e.g. +180 for (170,350)) and negative when
`target < current` (e.g. -180 for (350,170)); the tie is not broken toward
the positive direction. -/
theorem tie_break_keeps_raw_sign (c t : ℚ) (h : |t - c| = 180) :
    shortestDelta c t = t - c ∧
    (c < t → 0 < shortestDelta c t) ∧ (t < c → shortestDelta c t < 0) := by
  have hnotbig : ¬ |t - c| > 180 := by rw [h]; norm_num
  unfold shortestDelta
  rw [if_neg hnotbig]
  exact ⟨rfl, fun hct => by linarith, fun htc => by linarith⟩

/-- Witness for C5's amended theorem at (170, 350). -/
theorem tie_break_keeps_raw_sign_witness :
    shortestDelta 170 350 = 350 - 170 ∧ 0 < shortestDelta 170 350 := by
  have h := tie_break_keeps_raw_sign 170 350 (by norm_num)
  exact ⟨h.1, h.2.1 (by norm_num)⟩

lemma alt7_step_inv (s : T7.AltitudeMotorThread) (op : T7.AltOp)
    (h : 0 ≤ s.current_alt ∧ s.current_alt ≤ 90 ∧
         0 ≤ s.target_alt ∧ s.target_alt ≤ 90) :
    0 ≤ (s.step op).current_alt ∧ (s.step op).current_alt ≤ 90 ∧
    0 ≤ (s.step op).target_alt ∧ (s.step op).target_alt ≤ 90 := by
  obtain ⟨h1, h2, h3, h4⟩ := h
  cases op with
  | set_target t =>
    refine ⟨h1, h2, le_max_left _ _, max_le (by norm_num) (min_le_left _ _)⟩
  | set_speed v => exact ⟨h1, h2, h3, h4⟩
  | tick =>
    simp only [T7.AltitudeMotorThread.step, T7.AltitudeMotorThread.tick]
    split_ifs with hstop hdir
    · exact ⟨h1, h2, h3, h4⟩
    · exact ⟨le_max_left _ _, max_le (by norm_num) (min_le_left _ _), h3, h4⟩
    · exact ⟨le_max_left _ _, max_le (by norm_num) (min_le_left _ _), h3, h4⟩
  | stop => exact ⟨h1, h2, h3, h4⟩

lemma alt7_exec_inv (ops : List T7.AltOp) :
    0 ≤ (T7.AltitudeMotorThread.exec ops).current_alt ∧
    (T7.AltitudeMotorThread.exec ops).current_alt ≤ 90 ∧
    0 ≤ (T7.AltitudeMotorThread.exec ops).target_alt ∧
    (T7.AltitudeMotorThread.exec ops).target_alt ≤ 90 := by
  suffices hgen : ∀ (l : List T7.AltOp) (s : T7.AltitudeMotorThread),
      (0 ≤ s.current_alt ∧ s.current_alt ≤ 90 ∧
       0 ≤ s.target_alt ∧ s.target_alt ≤ 90) →
      (0 ≤ (l.foldl T7.AltitudeMotorThread.step s).current_alt ∧
       (l.foldl T7.AltitudeMotorThread.step s).current_alt ≤ 90 ∧
       0 ≤ (l.foldl T7.AltitudeMotorThread.step s).target_alt ∧
       (l.foldl T7.AltitudeMotorThread.step s).target_alt ≤ 90) by
    exact hgen ops T7.AltitudeMotorThread.init
      (by norm_num [T7.AltitudeMotorThread.init])
  intro l
  induction l with
  | nil => intro s h; exact h
  | cons op rest ih =>
    intro s h
    exact ih (s.step op) (alt7_step_inv s op h)

lemma az7_step_inv (s : T7.AzimuthMotorThread) (op : T7.AzOp)
    (h : 0 ≤ s.current_az ∧ s.current_az < 360 ∧
         0 ≤ s.target_az ∧ s.target_az < 360) :
    0 ≤ (s.step op).current_az ∧ (s.step op).current_az < 360 ∧
    0 ≤ (s.step op).target_az ∧ (s.step op).target_az < 360 := by
  obtain ⟨h1, h2, h3, h4⟩ := h
  have h360 : (0:ℚ) < 360 := by norm_num
  cases op with
  | set_target t => exact ⟨h1, h2, pymod_nonneg t h360, pymod_lt t h360⟩
  | set_speed v => exact ⟨h1, h2, h3, h4⟩
  | tick =>
    simp only [T7.AzimuthMotorThread.step, T7.AzimuthMotorThread.tick]
    split_ifs with hstop hdir
    · exact ⟨h1, h2, h3, h4⟩
    · exact ⟨pymod_nonneg _ h360, pymod_lt _ h360, h3, h4⟩
    · exact ⟨pymod_nonneg _ h360, pymod_lt _ h360, h3, h4⟩
  | stop => exact ⟨h1, h2, h3, h4⟩

lemma az7_exec_inv (ops : List T7.AzOp) :
    0 ≤ (T7.AzimuthMotorThread.exec ops).current_az ∧
    (T7.AzimuthMotorThread.exec ops).current_az < 360 ∧
    0 ≤ (T7.AzimuthMotorThread.exec ops).target_az ∧
    (T7.AzimuthMotorThread.exec ops).target_az < 360 := by
  suffices hgen : ∀ (l : List T7.AzOp) (s : T7.AzimuthMotorThread),
      (0 ≤ s.current_az ∧ s.current_az < 360 ∧
       0 ≤ s.target_az ∧ s.target_az < 360) →
      (0 ≤ (l.foldl T7.AzimuthMotorThread.step s).current_az ∧
       (l.foldl T7.AzimuthMotorThread.step s).current_az < 360 ∧
       0 ≤ (l.foldl T7.AzimuthMotorThread.step s).target_az ∧
       (l.foldl T7.AzimuthMotorThread.step s).target_az < 360) by
    exact hgen ops T7.AzimuthMotorThread.init
      (by norm_num [T7.AzimuthMotorThread.init])
  intro l
  induction l with
  | nil => intro s h; exact h
  | cons op rest ih =>
    intro s h
    exact ih (s.step op) (az7_step_inv s op h)

lemma az8_step_inv (s : T8.AzimuthThread) (op : T8.AzOp)
    (h : 0 ≤ s.current_position ∧ s.current_position ≤ 360 ∧
         0 ≤ s.target_position ∧ s.target_position ≤ 360) :
    0 ≤ (s.step op).current_position ∧ (s.step op).current_position ≤ 360 ∧
    0 ≤ (s.step op).target_position ∧ (s.step op).target_position ≤ 360 := by
  obtain ⟨h1, h2, h3, h4⟩ := h
  cases op with
  | set_azimuth t =>
    refine ⟨h1, h2, le_max_left _ _, max_le (by norm_num) (min_le_left _ _)⟩
  | set_speed v => exact ⟨h1, h2, h3, h4⟩
  | tick =>
    simp only [T8.AzimuthThread.step, T8.AzimuthThread.tick]
    split_ifs <;> refine ⟨?_, ?_, ?_, ?_⟩ <;> simp_all
  | stop_motors => exact ⟨h1, h2, h3, h4⟩

lemma az8_exec_inv (ops : List T8.AzOp) :
    0 ≤ (T8.AzimuthThread.exec ops).current_position ∧
    (T8.AzimuthThread.exec ops).current_position ≤ 360 ∧
    0 ≤ (T8.AzimuthThread.exec ops).target_position ∧
    (T8.AzimuthThread.exec ops).target_position ≤ 360 := by
  suffices hgen : ∀ (l : List T8.AzOp) (s : T8.AzimuthThread),
      (0 ≤ s.current_position ∧ s.current_position ≤ 360 ∧
       0 ≤ s.target_position ∧ s.target_position ≤ 360) →
      (0 ≤ (l.foldl T8.AzimuthThread.step s).current_position ∧
       (l.foldl T8.AzimuthThread.step s).current_position ≤ 360 ∧
       0 ≤ (l.foldl T8.AzimuthThread.step s).target_position ∧
       (l.foldl T8.AzimuthThread.step s).target_position ≤ 360) by
    exact hgen ops T8.AzimuthThread.init (by norm_num [T8.AzimuthThread.init])
  intro l
  induction l with
  | nil => intro s h; exact h
  | cons op rest ih =>
    intro s h
    exact ih (s.step op) (az8_step_inv s op h)

/-- C4 counterexample -- in `telescope_8/modules/azimuth.py`, from the
initial state, `set_azimuth(359)` followed by one loop iteration steps
backward from 0 to -0.2 and the wrap branch sets the position to exactly
360: the azimuth angle does not stay inside the half-open domain
`[0, 360)`. -/
theorem az8_reaches_360 :
    (T8.AzimuthThread.exec [.set_azimuth 359, .tick]).current_position = 360 ∧
    360 ≤ (T8.AzimuthThread.exec [.set_azimuth 359, .tick]).current_position := by
  have h : T8.AzimuthThread.exec [.set_azimuth 359, .tick] =
      ⟨360, 359⟩ := by
    show T8.AzimuthThread.tick
      (T8.AzimuthThread.set_azimuth T8.AzimuthThread.init 359) = ⟨360, 359⟩
    have hset : T8.AzimuthThread.set_azimuth T8.AzimuthThread.init 359 =
        ⟨0, 359⟩ := by
      unfold T8.AzimuthThread.set_azimuth T8.AzimuthThread.init pytrunc
      norm_num
    rw [hset]
    unfold T8.AzimuthThread.tick shortestDelta
    norm_num
  rw [h]
  norm_num

/-- C4 amended -- after any sequence of `set_target`/`set_speed`/`tick`/
`stop` operations from the initial state, the telescope_7 altitude axis
keeps `current_alt` and `target_alt` in `[0, 90]` and the telescope_7
azimuth axis keeps `current_az` and `target_az` in `[0, 360)`; the
telescope_8 azimuth axis only keeps its angles in the closed interval
`[0, 360]` — the endpoint 360 itself is reachable (see the
counterexample), so `[0, 360)` holds for telescope_7 but not telescope_8. -/
theorem axis_domain_invariant :
    (∀ ops : List T7.AltOp,
      0 ≤ (T7.AltitudeMotorThread.exec ops).current_alt ∧
      (T7.AltitudeMotorThread.exec ops).current_alt ≤ 90 ∧
      0 ≤ (T7.AltitudeMotorThread.exec ops).target_alt ∧
      (T7.AltitudeMotorThread.exec ops).target_alt ≤ 90) ∧
    (∀ ops : List T7.AzOp,
      0 ≤ (T7.AzimuthMotorThread.exec ops).current_az ∧
      (T7.AzimuthMotorThread.exec ops).current_az < 360 ∧
      0 ≤ (T7.AzimuthMotorThread.exec ops).target_az ∧
      (T7.AzimuthMotorThread.exec ops).target_az < 360) ∧
    (∀ ops : List T8.AzOp,
      0 ≤ (T8.AzimuthThread.exec ops).current_position ∧
      (T8.AzimuthThread.exec ops).current_position ≤ 360 ∧
      0 ≤ (T8.AzimuthThread.exec ops).target_position ∧
      (T8.AzimuthThread.exec ops).target_position ≤ 360) :=
  ⟨alt7_exec_inv, az7_exec_inv, az8_exec_inv⟩

lemma pymod_period_self {p : ℚ} (hp : 0 < p) : pymod p p = 0 := by
  unfold pymod
  have h1 : p / p = 1 := div_self (ne_of_gt hp)
  rw [h1]
  norm_num

lemma az7_shortest_wrap (c : ℚ) (h0 : 350 ≤ c) (h1 : c < 360) :
    shortestDelta c 10 = 370 - c := by
  show (if |10 - c| > 180 then (if 10 - c > 0 then 10 - c - 360 else 10 - c + 360)
        else 10 - c) = 370 - c
  have habs : |10 - c| > 180 := by
    rw [abs_sub_comm, abs_of_nonneg (by linarith : (0:ℚ) ≤ c - 10)]
    linarith
  rw [if_pos habs, if_neg (by linarith : ¬(10 - c > 0))]
  ring

lemma az7_shortest_low (c : ℚ) (h0 : 0 ≤ c) (h1 : c ≤ 10) :
    shortestDelta c 10 = 10 - c := by
  show (if |10 - c| > 180 then (if 10 - c > 0 then 10 - c - 360 else 10 - c + 360)
        else 10 - c) = 10 - c
  rw [if_neg]
  rw [abs_of_nonneg (by linarith : (0:ℚ) ≤ 10 - c)]
  linarith

lemma az7_tick_wrap_seg (c : ℚ) (h0 : 350 ≤ c) (h1 : c ≤ 359) :
    T7.AzimuthMotorThread.tick ⟨c, 10, 5⟩ = ⟨c + 1/2, 10, 5⟩ := by
  have hd : shortestDelta c 10 = 370 - c := az7_shortest_wrap c h0 (by linarith)
  show (if |shortestDelta c 10| < 0.1 then (⟨c, 10, 5⟩ : T7.AzimuthMotorThread)
        else if shortestDelta c 10 > 0 then ⟨pymod (c + 5 * 0.1) 360, 10, 5⟩
        else ⟨pymod (c - 5 * 0.1) 360, 10, 5⟩) = ⟨c + 1/2, 10, 5⟩
  rw [hd]
  rw [if_neg (by rw [abs_of_nonneg (by linarith : (0:ℚ) ≤ 370 - c)]; linarith)]
  rw [if_pos (by linarith : 370 - c > 0)]
  have harg : c + 5 * 0.1 = c + 1/2 := by norm_num
  rw [harg, pymod_eq_self (by norm_num) (by linarith) (by linarith)]

lemma az7_tick_at_wrap :
    T7.AzimuthMotorThread.tick ⟨359.5, 10, 5⟩ = ⟨0, 10, 5⟩ := by
  have hd : shortestDelta 359.5 10 = 370 - 359.5 :=
    az7_shortest_wrap 359.5 (by norm_num) (by norm_num)
  show (if |shortestDelta 359.5 10| < 0.1 then (⟨359.5, 10, 5⟩ : T7.AzimuthMotorThread)
        else if shortestDelta 359.5 10 > 0 then ⟨pymod (359.5 + 5 * 0.1) 360, 10, 5⟩
        else ⟨pymod (359.5 - 5 * 0.1) 360, 10, 5⟩) = ⟨0, 10, 5⟩
  rw [hd]
  rw [if_neg (by
    rw [abs_of_nonneg (by norm_num : (0:ℚ) ≤ 370 - 359.5)]; norm_num)]
  rw [if_pos (by norm_num)]
  have harg : (359.5 : ℚ) + 5 * 0.1 = 360 := by norm_num
  rw [harg, pymod_period_self (by norm_num : (0:ℚ) < 360)]

lemma az7_tick_low_seg (c : ℚ) (h0 : 0 ≤ c) (h1 : c ≤ 9.5) :
    T7.AzimuthMotorThread.tick ⟨c, 10, 5⟩ = ⟨c + 1/2, 10, 5⟩ := by
  have hd : shortestDelta c 10 = 10 - c := az7_shortest_low c h0 (by linarith)
  show (if |shortestDelta c 10| < 0.1 then (⟨c, 10, 5⟩ : T7.AzimuthMotorThread)
        else if shortestDelta c 10 > 0 then ⟨pymod (c + 5 * 0.1) 360, 10, 5⟩
        else ⟨pymod (c - 5 * 0.1) 360, 10, 5⟩) = ⟨c + 1/2, 10, 5⟩
  rw [hd]
  rw [if_neg (by rw [abs_of_nonneg (by linarith : (0:ℚ) ≤ 10 - c)]; linarith)]
  rw [if_pos (by linarith : 10 - c > 0)]
  have harg : c + 5 * 0.1 = c + 1/2 := by norm_num
  rw [harg, pymod_eq_self (by norm_num) (by linarith) (by linarith)]

lemma az7_tick_done :
    T7.AzimuthMotorThread.tick ⟨10, 10, 5⟩ = ⟨10, 10, 5⟩ := by
  have hd : shortestDelta 10 10 = 10 - 10 :=
    az7_shortest_low 10 (by norm_num) (by norm_num)
  show (if |shortestDelta 10 10| < 0.1 then (⟨10, 10, 5⟩ : T7.AzimuthMotorThread)
        else if shortestDelta 10 10 > 0 then ⟨pymod (10 + 5 * 0.1) 360, 10, 5⟩
        else ⟨pymod (10 - 5 * 0.1) 360, 10, 5⟩) = ⟨10, 10, 5⟩
  rw [hd]
  rw [if_pos (by norm_num)]

lemma az7_traj (k : ℕ) :
    T7.AzimuthMotorThread.tick^[k] T7.azScenario = ⟨T7.azTraj k, 10, 5⟩ := by
  induction k with
  | zero =>
    show T7.azScenario = _
    unfold T7.azScenario T7.azTraj
    norm_num
  | succ n ih =>
    rw [Function.iterate_succ_apply', ih]
    by_cases h19 : n < 19
    · have ht : T7.azTraj n = 350 + (n:ℚ)/2 := by
        unfold T7.azTraj; rw [if_pos (by omega)]
      have ht1 : T7.azTraj (n+1) = 350 + (n:ℚ)/2 + 1/2 := by
        unfold T7.azTraj; rw [if_pos (by omega)]; push_cast; ring
      have hcast : (n:ℚ) ≤ 18 := by exact_mod_cast Nat.lt_succ_iff.mp (by omega)
      rw [ht, ht1]
      have hn0 : (0:ℚ) ≤ (n:ℚ) := Nat.cast_nonneg n
      exact az7_tick_wrap_seg (350 + (n:ℚ)/2)
        (by linarith) (by linarith)
    · by_cases h19e : n = 19
      · subst h19e
        have ht : T7.azTraj 19 = 359.5 := by unfold T7.azTraj; norm_num
        have ht1 : T7.azTraj 20 = 0 := by unfold T7.azTraj; norm_num
        rw [ht, ht1]
        exact az7_tick_at_wrap
      · by_cases h40 : n < 40
        · have hn20 : 20 ≤ n := by omega
          have ht : T7.azTraj n = (n:ℚ)/2 - 10 := by
            unfold T7.azTraj; rw [if_neg (by omega), if_pos (by omega)]
          have ht1 : T7.azTraj (n+1) = (n:ℚ)/2 - 10 + 1/2 := by
            unfold T7.azTraj; rw [if_neg (by omega), if_pos (by omega)]
            push_cast; ring
          have hlo : (20:ℚ) ≤ (n:ℚ) := by exact_mod_cast hn20
          have hhi : (n:ℚ) ≤ 39 := by exact_mod_cast Nat.lt_succ_iff.mp (by omega)
          rw [ht, ht1]
          exact az7_tick_low_seg ((n:ℚ)/2 - 10) (by linarith) (by linarith)
        · have ht : T7.azTraj n = 10 := by
            unfold T7.azTraj
            rw [if_neg (by omega)]
            by_cases hn40 : n ≤ 40
            · have : n = 40 := by omega
              subst this; norm_num
            · rw [if_neg hn40]
          have ht1 : T7.azTraj (n+1) = 10 := by
            unfold T7.azTraj; rw [if_neg (by omega), if_neg (by omega)]
          rw [ht, ht1]
          exact az7_tick_done

/-- C6 counterexample -- in `telescope_7/modules/azimuth.py` the per-tick
step is `speed * 0.1` with speed clamped to at most 5.0 (asking for 10
degrees per second is clamped to 5.0), so from current 350 and target 10
two loop iterations only reach 351 degrees, 19 degrees short of the target
— not 10 degrees per tick and not arrival after 2 ticks. -/
theorem az_scenario_two_ticks_insufficient :
    (T7.azScenario.set_speed 10).speed = 5 ∧
    (T7.AzimuthMotorThread.tick^[2] T7.azScenario).current_az = 351 ∧
    shortestDelta (T7.AzimuthMotorThread.tick^[2] T7.azScenario).current_az 10
      = 19 := by
  have h2 : T7.AzimuthMotorThread.tick^[2] T7.azScenario = ⟨351, 10, 5⟩ := by
    rw [az7_traj 2]
    have : T7.azTraj 2 = 351 := by unfold T7.azTraj; norm_num
    rw [this]
  refine ⟨?_, ?_, ?_⟩
  · unfold T7.AzimuthMotorThread.set_speed T7.azScenario
    norm_num
  · rw [h2]
  · rw [h2]
    rw [az7_shortest_wrap 351 (by norm_num) (by norm_num)]
    norm_num

/-- C6 amended -- from current 350, target 10, at the maximum speed 5.0 the
controller does move in the positive direction through the 360/0 wrap
(first tick to 350.5), but at `speed * 0.1 = 0.5` degrees per tick, reaching
the target after 40 ticks; throughout, the position stays in
`[350, 360) ∪ [0, 10]` and in particular never passes through 180. -/
theorem az_wrap_scenario :
    (T7.AzimuthMotorThread.tick T7.azScenario).current_az = 350.5 ∧
    (T7.AzimuthMotorThread.tick^[40] T7.azScenario).current_az = 10 ∧
    ∀ k : ℕ,
      (350 ≤ (T7.AzimuthMotorThread.tick^[k] T7.azScenario).current_az ∧
        (T7.AzimuthMotorThread.tick^[k] T7.azScenario).current_az < 360) ∨
      (0 ≤ (T7.AzimuthMotorThread.tick^[k] T7.azScenario).current_az ∧
        (T7.AzimuthMotorThread.tick^[k] T7.azScenario).current_az ≤ 10) := by
  refine ⟨?_, ?_, ?_⟩
  · have h1 : T7.AzimuthMotorThread.tick^[1] T7.azScenario = ⟨T7.azTraj 1, 10, 5⟩ :=
      az7_traj 1
    rw [Function.iterate_one] at h1
    rw [h1]
    unfold T7.azTraj
    norm_num
  · rw [az7_traj 40]
    unfold T7.azTraj
    norm_num
  · intro k
    rw [az7_traj k]
    unfold T7.azTraj
    split_ifs with hA hB
    · left
      have hk : (k:ℚ) ≤ 19 := by exact_mod_cast Nat.lt_succ_iff.mp (by omega)
      have hk0 : (0:ℚ) ≤ (k:ℚ) := Nat.cast_nonneg k
      constructor <;> linarith
    · right
      have hk20 : (20:ℚ) ≤ (k:ℚ) := by exact_mod_cast (by omega : 20 ≤ k)
      have hk40 : (k:ℚ) ≤ 40 := by exact_mod_cast hB
      constructor <;> linarith
    · right
      norm_num

/-- C1 -- with the solar-filter confirmation false: a sun slew from the
widget is rejected by the interlock (state unchanged, no position emitted),
the main-window slew handler aborts, and enabling auto-track is rejected
with the thread's `auto_track` left off (mode stays Idle); after confirming
the filter, the same auto-track command is accepted and sun tracking turns
on. -/
theorem sun_safety_interlock (eph : ℚ → ℚ → ℚ → Option (ℚ × ℚ))
    (s : T7.SunTrackingWidget) (t target_alt target_az : ℚ)
    (hfilter : s.filter_checked = false)
    (hidle : s.tracking_thread.auto_track = false) :
    (s.slew_to_sun_position eph t).2.2 = .rejectedSafety ∧
    (s.slew_to_sun_position eph t).1 = s ∧
    (s.slew_to_sun_position eph t).2.1 = none ∧
    T7.slew_to_sun_position_main false target_alt target_az = none ∧
    (s.toggle_auto_track true).2 = .rejectedSafety ∧
    (s.toggle_auto_track true).1.tracking_thread.auto_track = false ∧
    ((s.toggle_filter true).toggle_auto_track true).2 = .accepted ∧
    ((s.toggle_filter true).toggle_auto_track true).1.tracking_thread.auto_track
      = true := by
  refine ⟨?_, ?_, ?_, ?_, ?_, ?_, ?_, ?_⟩ <;>
    simp [T7.SunTrackingWidget.slew_to_sun_position,
      T7.SunTrackingWidget.toggle_auto_track, T7.SunTrackingWidget.toggle_filter,
      T7.SunTrackingThread.set_auto_track, T7.slew_to_sun_position_main, hfilter]

/-- Witness for C1 on a concrete widget state with the filter unchecked. -/
theorem sun_safety_interlock_witness :
    ((⟨false, false, ⟨51, 0, false, true⟩⟩ :
        T7.SunTrackingWidget).toggle_auto_track true).2 = .rejectedSafety ∧
    (((⟨false, false, ⟨51, 0, false, true⟩⟩ :
        T7.SunTrackingWidget).toggle_filter true).toggle_auto_track
        true).1.tracking_thread.auto_track = true :=
  ⟨(sun_safety_interlock (fun _ _ _ => some (45, 120))
      ⟨false, false, ⟨51, 0, false, true⟩⟩ 0 45 120 rfl rfl).2.2.2.2.1,
   (sun_safety_interlock (fun _ _ _ => some (45, 120))
      ⟨false, false, ⟨51, 0, false, true⟩⟩ 0 45 120 rfl rfl).2.2.2.2.2.2.2⟩

/-- C2 -- while sun auto-tracking is active (Auto Track checked and the
thread's `auto_track` on), unchecking the solar filter immediately forces
the thread's `auto_track` off, and the very next iteration of the tracking
loop emits no sun position: sun-directed motion does not continue past one
tick period with the safety confirmation revoked. -/
theorem sun_safety_revoked_stops_tracking
    (eph : ℚ → ℚ → ℚ → Option (ℚ × ℚ)) (s : T7.SunTrackingWidget) (t : ℚ)
    (hbtn : s.auto_track_btn = true)
    (hon : s.tracking_thread.auto_track = true) :
    (s.toggle_filter false).tracking_thread.auto_track = false ∧
    T7.SunTrackingThread.tick eph (s.toggle_filter false).tracking_thread t
      = none := by
  have h : (s.toggle_filter false).tracking_thread.auto_track = false := by
    simp [T7.SunTrackingWidget.toggle_filter, hbtn,
      T7.SunTrackingThread.set_auto_track]
  exact ⟨h, by simp [T7.SunTrackingThread.tick, h]⟩

/-- Witness for C2 on a concrete actively-tracking widget state. -/
theorem sun_safety_revoked_witness :
    ((⟨true, true, ⟨51, 0, true, true⟩⟩ :
        T7.SunTrackingWidget).toggle_filter false).tracking_thread.auto_track
      = false ∧
    T7.SunTrackingThread.tick (fun _ _ _ => some (45, 120))
      ((⟨true, true, ⟨51, 0, true, true⟩⟩ :
        T7.SunTrackingWidget).toggle_filter false).tracking_thread 0 = none :=
  sun_safety_revoked_stops_tracking (fun _ _ _ => some (45, 120))
    ⟨true, true, ⟨51, 0, true, true⟩⟩ 0 rfl rfl

/-- C9 -- the sun and moon position calculations read only the observer
latitude/longitude (and the sampled time) from the thread state: two thread
states agreeing on `lat`/`lon` yield identical results at the same time
under the same ephemeris, whatever their other fields — the computation is
a pure function of (body, observer location, timestamp). -/
theorem celestial_position_pure
    (eph : ℚ → ℚ → ℚ → Option (ℚ × ℚ))
    (s1 s2 : T7.SunTrackingThread) (m1 m2 : T7.MoonTrackingThread) (t : ℚ)
    (hslat : s1.lat = s2.lat) (hslon : s1.lon = s2.lon)
    (hmlat : m1.lat = m2.lat) (hmlon : m1.lon = m2.lon) :
    s1.calculate_sun_position eph t = s2.calculate_sun_position eph t ∧
    m1.calculate_moon_position eph t = m2.calculate_moon_position eph t := by
  unfold T7.SunTrackingThread.calculate_sun_position
    T7.MoonTrackingThread.calculate_moon_position
  rw [hslat, hslon, hmlat, hmlon]
  exact ⟨rfl, rfl⟩

/-- Witness for C9: same observer, opposite `auto_track`/`running` flags. -/
theorem celestial_position_pure_witness :
    (⟨51, 0, true, true⟩ : T7.SunTrackingThread).calculate_sun_position
        (fun la lo t => some (la + t, lo)) 1 =
      (⟨51, 0, false, false⟩ : T7.SunTrackingThread).calculate_sun_position
        (fun la lo t => some (la + t, lo)) 1 ∧
    (⟨51, 0, true, true⟩ : T7.MoonTrackingThread).calculate_moon_position
        (fun la lo t => some (la + t, lo)) 1 =
      (⟨51, 0, false, false⟩ : T7.MoonTrackingThread).calculate_moon_position
        (fun la lo t => some (la + t, lo)) 1 :=
  celestial_position_pure (fun la lo t => some (la + t, lo))
    ⟨51, 0, true, true⟩ ⟨51, 0, false, false⟩
    ⟨51, 0, true, true⟩ ⟨51, 0, false, false⟩ 1 rfl rfl rfl rfl

/-- C8 counterexample -- the telescope_7 sun thread keeps no cached
position: after a call that successfully returned (45, 120), a failing call
returns the fixed default (0, 0) — not the previous position (45, 120) the
claim requires. -/
theorem sun_calc_failure_returns_default :
    ((⟨51, 0, false, true⟩ : T7.SunTrackingThread).calculate_sun_position
       (fun _ _ t => if t = 0 then some (45, 120) else none) 0).1 = (45, 120) ∧
    ((⟨51, 0, false, true⟩ : T7.SunTrackingThread).calculate_sun_position
       (fun _ _ t => if t = 0 then some (45, 120) else none) 1).1 = (0, 0) := by
  constructor <;> simp [T7.SunTrackingThread.calculate_sun_position]

/-- C8 amended -- a failing calculation never propagates: the error is
reported on a signal and the call returns a value.  The telescope_8 moon
calculation does return the previous cached `current_moon_data`, but the
telescope_7 sun calculation returns the fixed default (0, 0) rather than
any previous position. -/
theorem calc_failure_handling
    (eph : ℚ → ℚ → ℚ → Option (ℚ × ℚ)) (s : T7.SunTrackingThread) (t : ℚ)
    (cos_deg : ℚ → ℚ) (meph : ℚ → ℚ → ℚ → Option (ℚ × ℚ × ℚ))
    (m : T8.MoonCalculationThread) (u : ℚ)
    (hsfail : eph s.lat s.lon t = none)
    (hmfail : meph m.latitude m.longitude u = none) :
    s.calculate_sun_position eph t = ((0, 0), true) ∧
    m.calculate_moon_position cos_deg meph u = m.current_moon_data := by
  unfold T7.SunTrackingThread.calculate_sun_position
    T8.MoonCalculationThread.calculate_moon_position
  rw [hsfail, hmfail]
  exact ⟨rfl, rfl⟩

/-- Witness for C8's amended theorem with an always-failing ephemeris. -/
theorem calc_failure_handling_witness :
    (⟨51, 0, false, true⟩ : T7.SunTrackingThread).calculate_sun_position
        (fun _ _ _ => none) 0 = ((0, 0), true) ∧
    (⟨51, 0, false, T8.MoonData.init⟩ :
        T8.MoonCalculationThread).calculate_moon_position
        (fun x => x) (fun _ _ _ => none) 0 =
      (⟨51, 0, false, T8.MoonData.init⟩ :
        T8.MoonCalculationThread).current_moon_data :=
  calc_failure_handling (fun _ _ _ => none) ⟨51, 0, false, true⟩ 0
    (fun x => x) (fun _ _ _ => none) ⟨51, 0, false, T8.MoonData.init⟩ 0 rfl rfl

/-- C7 counterexample -- the phase name is a function of the illumination
percentage alone (the cited functions take nothing else), so at 75%
illumination `telescope/modules/moon.py` always answers "Waning Gibbous" and
`telescope_7/modules/moon.py` always answers "Waxing Gibbous" — whichever
side of the phase cycle the moon is actually on; no elongation-rate sign is
consulted and the two variants hard-code opposite sides. -/
theorem moon_phase_side_fixed_by_illumination :
    T1.calculate_moon_phase 75 = "Waning Gibbous" ∧
    T7.update_moon_phase_text 75 = "Waxing Gibbous" := by
  constructor
  · unfold T1.calculate_moon_phase; norm_num
  · unfold T7.update_moon_phase_text; norm_num

/-- C7 amended -- the moon phase name is selected from the illumination
percentage alone by fixed threshold chains; the waxing-vs-waning side is
hard-coded, not derived from the elongation rate: in
`telescope/modules/moon.py` every illumination in [50, 98) is labelled
"Waning Gibbous" and the name "Waxing Gibbous" is unreachable for any
input, while in `telescope_7/modules/moon.py` every phase percentage in
[60, 90) is labelled "Waxing Gibbous". -/
theorem moon_phase_thresholds (i : ℚ) :
    T1.calculate_moon_phase i ≠ "Waxing Gibbous" ∧
    (50 ≤ i → i < 98 → T1.calculate_moon_phase i = "Waning Gibbous") ∧
    (60 ≤ i → i < 90 → T7.update_moon_phase_text i = "Waxing Gibbous") := by
  refine ⟨?_, ?_, ?_⟩
  · unfold T1.calculate_moon_phase
    split_ifs with h1 h2 h3 h4 h5 <;> simp
    linarith
  · intro hlo hhi
    unfold T1.calculate_moon_phase
    rw [if_neg (by linarith), if_pos (by linarith)]
  · intro hlo hhi
    unfold T7.update_moon_phase_text
    rw [if_neg (by linarith), if_neg (by linarith), if_neg (by linarith),
      if_pos hhi]

/-- Witness for C7's amended theorem at illuminations 60 and 75. -/
theorem moon_phase_thresholds_witness :
    T1.calculate_moon_phase 60 = "Waning Gibbous" ∧
    T7.update_moon_phase_text 62 = "Waxing Gibbous" :=
  ⟨(moon_phase_thresholds 60).2.1 (by norm_num) (by norm_num),
   (moon_phase_thresholds 62).2.2 (by norm_num) (by norm_num)⟩

/-- C10 -- the coordinator's moon slew handler accepts every computed
position: the altitude target it issues is clamped into [0, 90] (a
below-horizon altitude is silently raised to 0) and the azimuth target is
wrapped modulo 360 into [0, 360); with the filter confirmed the sun handler
issues exactly the same targets rather than rejecting. -/
theorem slew_handlers_never_reject (target_alt target_az : ℚ) :
    0 ≤ (T7.slew_to_moon_position_main target_alt target_az).1 ∧
    (T7.slew_to_moon_position_main target_alt target_az).1 ≤ 90 ∧
    (target_alt < 0 → (T7.slew_to_moon_position_main target_alt target_az).1 = 0) ∧
    0 ≤ (T7.slew_to_moon_position_main target_alt target_az).2 ∧
    (T7.slew_to_moon_position_main target_alt target_az).2 < 360 ∧
    pymod (T7.slew_to_moon_position_main target_alt target_az).2 360 =
      pymod target_az 360 ∧
    T7.slew_to_sun_position_main true target_alt target_az =
      some (T7.slew_to_moon_position_main target_alt target_az) := by
  have h360 : (0:ℚ) < 360 := by norm_num
  refine ⟨le_max_left _ _, max_le (by norm_num) (min_le_left _ _), ?_, ?_, ?_,
    ?_, ?_⟩
  · intro hneg
    unfold T7.slew_to_moon_position_main
    simp only
    rw [min_eq_right (by linarith), max_eq_left (le_of_lt hneg)]
  · exact pymod_nonneg _ h360
  · exact pymod_lt _ h360
  · exact pymod_eq_self h360 (pymod_nonneg _ h360) (pymod_lt _ h360)
  · unfold T7.slew_to_sun_position_main T7.slew_to_moon_position_main
    simp

/-- Witness for C10 at a below-horizon, out-of-range position (-5, 370). -/
theorem slew_handlers_never_reject_witness :
    (T7.slew_to_moon_position_main (-5) 370).1 = 0 ∧
    0 ≤ (T7.slew_to_moon_position_main (-5) 370).2 ∧
    (T7.slew_to_moon_position_main (-5) 370).2 < 360 :=
  ⟨(slew_handlers_never_reject (-5) 370).2.2.1 (by norm_num),
   (slew_handlers_never_reject (-5) 370).2.2.2.1,
   (slew_handlers_never_reject (-5) 370).2.2.2.2.1⟩

end RoboticTelescope
